import Mathlib

/-!
Shallow embedding of the Super App backend (`src/main.py`, `src/schemas.py`):
OTP-based phone authentication, session tokens, and the mock vertical
endpoints, over a document-store state.

Timestamps are modelled as `Int` seconds (Python `datetime` values compare
by order only here); `timedelta(minutes=5)` is `300`, `timedelta(days=7)` is
`604800`. Randomness (`secrets.randbelow`, `secrets.token_hex`) is passed in
as an explicit parameter, constrained by hypotheses where the Python API
guarantees a range. Stateful endpoints take the store and return the result
together with the store after the call; an `HTTPException` is an
`Except.error` carrying the status code and detail string.
-/

namespace SuperApp

/-- Document of the `otp` collection (`schemas.Otp`; `main.request_otp`
writes `phone`, `code`, `status`, `expires_at`, `attempts`; the best-effort
update in `verify_otp` additionally sets `updated_at`, absent at creation). -/
structure OtpRecord where
  phone : String
  code : String
  status : String
  expires_at : Int
  attempts : Nat
  updated_at : Option Int
  deriving DecidableEq

/-- Document of the `session` collection (`schemas.Session`). -/
structure SessionRecord where
  user_id : String
  token : String
  expires_at : Int
  deriving DecidableEq

/-- Document of the `activity` collection (`schemas.Activity`). -/
structure ActivityRecord where
  user_id : String
  category : String
  title : String
  details : String
  amount : ℚ
  deriving DecidableEq

/-- Document of the `payment` collection (written by `main.create_payment`). -/
structure PaymentRecord where
  user_id : String
  amount : ℚ
  method : String
  ref : String
  deriving DecidableEq

/-- Modelled from the spec: the document store behind `database.create_document`,
`database.get_documents` and `db[...].update_many` (file `database.py` is not in
the sources; spec section 2 describes it as generic persistence over named
collections returning documents in their natural order). One list per
collection used by the endpoints, in insertion order. -/
structure Store where
  otp : List OtpRecord
  session : List SessionRecord
  activity : List ActivityRecord
  payment : List PaymentRecord
  deriving DecidableEq

/-- Modelled from the spec: `get_documents("otp", {"phone": phone, "code": code}, limit=n)` —
filter by exact field equality, truncated to the limit, in natural order. -/
def get_otp_documents (s : Store) (phone code : String) (limit : Nat) : List OtpRecord :=
  (s.otp.filter (fun r => r.phone == phone && r.code == code)).take limit

/-- Modelled from the spec: `get_documents("session", {"token": token}, limit=n)`. -/
def get_session_documents (s : Store) (token : String) (limit : Nat) : List SessionRecord :=
  (s.session.filter (fun r => r.token == token)).take limit

/-- Modelled from the spec: `get_documents("activity", {"user_id": user_id}, limit=n)`. -/
def get_activity_documents (s : Store) (user_id : String) (limit : Nat) : List ActivityRecord :=
  (s.activity.filter (fun r => r.user_id == user_id)).take limit

/-- HTTP error result: `HTTPException(status_code=..., detail=...)`. -/
structure HttpError where
  status : Nat
  detail : String
  deriving DecidableEq

instance {ε α : Type} [DecidableEq ε] [DecidableEq α] : DecidableEq (Except ε α) :=
  fun x y =>
    match x, y with
    | .error a, .error b => if h : a = b then .isTrue (by simp [h]) else .isFalse (by simp [h])
    | .error _, .ok _ => .isFalse (by simp)
    | .ok _, .error _ => .isFalse (by simp)
    | .ok a, .ok b => if h : a = b then .isTrue (by simp [h]) else .isFalse (by simp [h])

/-- Embeds Python `str.strip()`: remove whitespace from both ends. -/
def pyStrip (s : String) : String :=
  String.mk (((s.data.dropWhile Char.isWhitespace).reverse.dropWhile Char.isWhitespace).reverse)

/-- Embeds Python `f"{n:06d}"` on the output of `secrets.randbelow(1000000)`:
the six zero-padded decimal digits of `n`, most significant first (for
`n < 1000000` this is exactly the Python format result). -/
def format06 (n : Nat) : String :=
  String.mk ([n / 100000, n / 10000, n / 1000, n / 100, n / 10, n].map
    (fun d => Char.ofNat (48 + d % 10)))

/-- Embeds `POST /auth/request-otp` (`main.request_otp`). `rand` is the draw
of `secrets.randbelow(1000000)`. Returns `(code, expires_in)` on success. -/
def request_otp (s : Store) (now : Int) (rand : Nat) (phoneRaw : String) :
    Except HttpError (String × Nat) × Store :=
  let phone := pyStrip phoneRaw
  if phone = "" then
    (.error ⟨400, "Phone is required"⟩, s)
  else
    let code := format06 rand
    let expires_at := now + 300
    (.ok (code, 300),
      { s with otp := s.otp ++ [⟨phone, code, "pending", expires_at, 0, none⟩] })

/-- One hexadecimal digit character, lowercase (as `bytes.hex()` produces). -/
def hexDigit (n : Nat) : Char :=
  if n < 10 then Char.ofNat (48 + n) else Char.ofNat (87 + n)

/-- Two-character lowercase hex rendering of one byte. -/
def byteHex (b : Nat) : List Char :=
  [hexDigit (b / 16), hexDigit (b % 16)]

/-- Embeds `secrets.token_hex(k)` applied to the drawn bytes: the lowercase
hex string of the byte list (each byte below 256). -/
def token_hex (bytes : List Nat) : String :=
  String.mk (bytes.map byteHex).flatten

/-- The patch of the best-effort
`db["otp"].update_many({"phone": phone, "code": code}, {"$set": {"status": "verified", "updated_at": now}})`
applied to one document: set status and updated_at when the filter matches. -/
def markVerified (phone code : String) (now : Int) (r : OtpRecord) : OtpRecord :=
  if r.phone == phone && r.code == code then
    { r with status := "verified", updated_at := some now }
  else r

/-- Embeds `POST /auth/verify-otp` (`main.verify_otp`). `tokenBytes` is the
random draw behind `secrets.token_hex(16)`; `updateOk` tells whether the
best-effort `update_many` marking the OTP verified succeeds or raises (a
raise is swallowed by the `try/except`). Returns the session token. -/
def verify_otp (s : Store) (now : Int) (tokenBytes : List Nat) (updateOk : Bool)
    (phoneRaw codeRaw : String) : Except HttpError String × Store :=
  let phone := pyStrip phoneRaw
  let code := pyStrip codeRaw
  match get_otp_documents s phone code 1 with
  | [] => (.error ⟨400, "Invalid code"⟩, s)
  | otp_doc :: _ =>
    if otp_doc.status = "expired" ∨ otp_doc.expires_at < now then
      (.error ⟨400, "Code expired"⟩, s)
    else
      let token := token_hex tokenBytes
      let expires_at := now + 604800
      let s1 := { s with session := s.session ++ [⟨phone, token, expires_at⟩] }
      let s2 :=
        if updateOk then
          { s1 with otp := s1.otp.map (markVerified phone code now) }
        else s1
      (.ok token, s2)

/-- The session lookup gating the protected endpoints, as performed inline by
`main.list_activity` (lines 122-127): reject an absent or empty token with
401 Missing token, an unmatched one with 401 Invalid token, else resolve the
first matching session record to its `user_id`. -/
def authenticate (s : Store) (token : Option String) : Except HttpError String :=
  match token with
  | none => .error ⟨401, "Missing token"⟩
  | some t =>
    if t = "" then .error ⟨401, "Missing token"⟩
    else
      match get_session_documents s t 1 with
      | [] => .error ⟨401, "Invalid token"⟩
      | sess :: _ => .ok sess.user_id

/-- The four demo activity entries seeded by `main.list_activity` on a user's
first visit. -/
def demo_items (user_id : String) : List ActivityRecord :=
  [⟨user_id, "travel", "Flight to NYC booked", "6E 101", 249⟩,
   ⟨user_id, "payment", "Paid at Coffee Bar", "VISA **** 4213", 9 / 2⟩,
   ⟨user_id, "cab", "Cab ride completed", "Downtown to Office", 123 / 10⟩,
   ⟨user_id, "grocery", "Grocery order delivered", "Order #GZ1021", 569 / 10⟩]

/-- Embeds `GET /activity` (`main.list_activity`): authenticate, read the
user's activity (limit 50), seed the four demo items when it is empty and
re-read, return the items. -/
def list_activity (s : Store) (token : Option String) :
    Except HttpError (List ActivityRecord) × Store :=
  match authenticate s token with
  | .error e => (.error e, s)
  | .ok user_id =>
    let items := get_activity_documents s user_id 50
    if items = [] then
      let s1 := { s with activity := s.activity ++ demo_items user_id }
      (.ok (get_activity_documents s1 user_id 50), s1)
    else
      (.ok items, s)

/-- Python `round(q, 2)` on the exact value: round half to even on the
second decimal. -/
def roundHalfEven (q : ℚ) : ℤ :=
  let f := ⌊q⌋
  let r := q - (f : ℚ)
  if r < 1 / 2 then f
  else if (1 / 2 : ℚ) < r then f + 1
  else if f % 2 = 0 then f else f + 1

/-- Python `round(q, 2)`: scale by 100, round half to even, scale back. -/
def pyRound2 (q : ℚ) : ℚ :=
  (roundHalfEven (100 * q) : ℚ) / 100

/-- Embeds `POST /cab/quote` (`main.cab_quote`): presence check on the token
only, then the deterministic fare formula
`round(2.5 + 1.2 * max(1, len(pickup + dropoff)) / 10, 2)`. -/
def cab_quote (pickup dropoff : String) (token : Option String) :
    Except HttpError (String × String × ℚ) :=
  match token with
  | none => .error ⟨401, "Missing token"⟩
  | some t =>
    if t = "" then .error ⟨401, "Missing token"⟩
    else
      let fare := pyRound2 (5 / 2 + 6 / 5 * ((max 1 (pickup ++ dropoff).length : ℕ) : ℚ) / 10)
      .ok (pickup, dropoff, fare)

/-- Embeds `POST /grocery/checkout` (`main.grocery_checkout`): presence check
on the token only, then `round(3.99 + items * 2.5, 2)`. -/
def grocery_checkout (items : Int) (token : Option String) :
    Except HttpError (ℚ × String) :=
  match token with
  | none => .error ⟨401, "Missing token"⟩
  | some t =>
    if t = "" then .error ⟨401, "Missing token"⟩
    else .ok (pyRound2 (399 / 100 + (items : ℚ) * (5 / 2)), "created")

/-- Embeds `POST /travel/search` (`main.travel_search`): presence check on
the token only, then `round(99 + (len(from_city) + len(to_city)) * 5.5, 2)`. -/
def travel_search (from_city to_city : String) (token : Option String) :
    Except HttpError (String × String × String × ℚ) :=
  match token with
  | none => .error ⟨401, "Missing token"⟩
  | some t =>
    if t = "" then .error ⟨401, "Missing token"⟩
    else
      let price := pyRound2 (99 + ((from_city.length + to_city.length : ℕ) : ℚ) * (11 / 2))
      .ok (from_city, to_city, "IndiGo", price)

/-- Embeds `POST /pay/create-intent` (`main.create_payment`): presence check
on the token only; persists a payment document whose `user_id` field is the
token string itself (source line 191). `refBytes` is the draw behind
`secrets.token_hex(8)`. -/
def create_payment (s : Store) (refBytes : List Nat) (amount : ℚ) (method : String)
    (token : Option String) : Except HttpError String × Store :=
  match token with
  | none => (.error ⟨401, "Missing token"⟩, s)
  | some t =>
    if t = "" then (.error ⟨401, "Missing token"⟩, s)
    else
      let ref := token_hex refBytes
      (.ok ref, { s with payment := s.payment ++ [⟨t, amount, method, ref⟩] })

/-- Whether a result is a success (a non-raising handler return). -/
def exceptOk {ε α : Type} : Except ε α → Bool
  | .ok _ => true
  | .error _ => false

/-- The document `get_documents("otp", {...}, limit=1)` surfaces, when any:
the first `(phone, code)` match in the store's natural order. -/
def otpFirstMatch (s : Store) (phone code : String) : Option OtpRecord :=
  (s.otp.filter (fun r => r.phone == phone && r.code == code)).head?

/-- Rewrite every stored session expiry through `g` (used to state that
authentication never consults the expiry field). -/
def setExpiry (g : Int → Int) (s : Store) : Store :=
  { s with session := s.session.map (fun r => { r with expires_at := g r.expires_at }) }

/-- Lowercase hexadecimal digit character test. -/
def isHexChar (c : Char) : Bool :=
  c.isDigit || ('a' ≤ c && c ≤ 'f')

/-- The empty document store. -/
def store0 : Store := ⟨[], [], [], []⟩

/-! General list lemmas used to reason about filtered lookups. -/

theorem take_one_eq_of_head (l : List α) (a : α) (h : l.head? = some a) :
    l.take 1 = [a] := by
  cases l with
  | nil => simp at h
  | cons x xs => simp at h; simp [h]

theorem filter_map_comm (f : α → α) (p : α → Bool) (hp : ∀ a, p (f a) = p a)
    (l : List α) : (l.map f).filter p = (l.filter p).map f := by
  induction l with
  | nil => rfl
  | cons a t ih =>
    simp only [List.map_cons, List.filter_cons, hp a]
    cases p a <;> simp [ih]

theorem first_agreeing_match (l : List SessionRecord) (rec : SessionRecord)
    (hmem : rec ∈ l)
    (agree : ∀ r ∈ l, r.token = rec.token → r.user_id = rec.user_id) :
    ∃ r, (l.filter (fun r => r.token == rec.token)).head? = some r ∧
      r.user_id = rec.user_id := by
  induction l with
  | nil => cases hmem
  | cons a t ih =>
    by_cases ha : a.token = rec.token
    · refine ⟨a, ?_, agree a (List.mem_cons_self a t) ha⟩
      simp [List.filter_cons, ha]
    · have hmem' : rec ∈ t := by
        cases hmem with
        | head => exact absurd rfl ha
        | tail _ h => exact h
      have agree' : ∀ r ∈ t, r.token = rec.token → r.user_id = rec.user_id :=
        fun r hr => agree r (List.mem_cons_of_mem a hr)
      obtain ⟨r, hr, hu⟩ := ih hmem' agree'
      refine ⟨r, ?_, hu⟩
      have : (a.token == rec.token) = false := by
        simp [ha]
      simp [List.filter_cons, this, hr]

/-! ## Claim C1 -/

/-- Store used to exhibit a non-empty token that matches no session record. -/
def c1Store : Store := store0

/-- Claim C1, counterexample: with an empty session store the token
`"sometoken"` matches no `SessionRecord`, yet `POST /cab/quote` carrying it
succeeds instead of rejecting with a 401 InvalidToken error — only
`/activity` performs the session lookup; the vertical endpoints check
presence only. -/
theorem c1_counterexample :
    get_session_documents c1Store "sometoken" 1 = [] ∧
    exceptOk (cab_quote "a" "b" (some "sometoken")) = true :=
  ⟨rfl, rfl⟩

/-- Claim C1 (amended): for a non-empty token matching no stored
`SessionRecord`, `/activity` rejects the request with a 401 Invalid token
error and leaves the store unchanged, while `/cab/quote`,
`/grocery/checkout`, `/travel/search` and `/pay/create-intent` accept the
request (they validate only that a token is present). -/
theorem c1_amended (s : Store) (t : String) (ht : t ≠ "")
    (hnm : s.session.filter (fun r => r.token == t) = [])
    (pickup dropoff from_city to_city method : String) (items : Int)
    (bytes : List Nat) (amount : ℚ) :
    list_activity s (some t) = (.error ⟨401, "Invalid token"⟩, s)
    ∧ (∃ v, cab_quote pickup dropoff (some t) = .ok v)
    ∧ (∃ v, grocery_checkout items (some t) = .ok v)
    ∧ (∃ v, travel_search from_city to_city (some t) = .ok v)
    ∧ (∃ v w, create_payment s bytes amount method (some t) = (.ok v, w)) := by
  have hauth : authenticate s (some t) = .error ⟨401, "Invalid token"⟩ := by
    simp [authenticate, ht, get_session_documents, hnm]
  refine ⟨?_, ?_, ?_, ?_, ?_⟩ <;>
    simp [list_activity, hauth, cab_quote, grocery_checkout, travel_search,
      create_payment, ht]

/-- Claim C1, witness instance of the amended theorem at a concrete store
and token. -/
theorem c1_witness :
    ("sometoken" : String) ≠ ""
    ∧ (list_activity store0 (some "sometoken") = (.error ⟨401, "Invalid token"⟩, store0)
      ∧ (∃ v, cab_quote "a" "b" (some "sometoken") = .ok v)
      ∧ (∃ v, grocery_checkout 3 (some "sometoken") = .ok v)
      ∧ (∃ v, travel_search "NYC" "SFO" (some "sometoken") = .ok v)
      ∧ (∃ v w, create_payment store0 [1] 5 "card" (some "sometoken") = (.ok v, w))) :=
  ⟨by decide, c1_amended store0 "sometoken" (by decide) rfl "a" "b" "NYC" "SFO" "card" 3 [1] 5⟩

/-! ## Claim C2 -/

/-- Store holding two session records that share a token but belong to
different user identities. -/
def c2Store : Store := ⟨[], [⟨"A", "t", 0⟩, ⟨"B", "t", 0⟩], [], []⟩

/-- Claim C2, counterexample: the record `{user_id := "B", token := "t"}` is
present in the store, but authenticating its token returns the user id of
the first stored record with that token (`"A"`), not `"B"` — the lookup is
`limit 1` in natural order, so the claim's "returns its user_id" fails when
two records share a token. -/
theorem c2_counterexample :
    (⟨"B", "t", 0⟩ : SessionRecord) ∈ c2Store.session
    ∧ authenticate c2Store (some "t") ≠ .ok "B"
    ∧ authenticate c2Store (some "t") = .ok "A" := by
  refine ⟨by simp [c2Store], ?_, rfl⟩
  intro h
  simp [authenticate, c2Store, get_session_documents] at h

/-- Claim C2 (amended): for every stored `SessionRecord` whose token is
non-empty and is not shared with a record of a different user id, the
session lookup performed by `/activity` succeeds on that token and returns
its `user_id`; and it does so whatever value every stored expiry field is
rewritten to — the expiry field is never consulted (`authenticate` does not
even take the current time). -/
theorem c2_amended (s : Store) (rec : SessionRecord) (hmem : rec ∈ s.session)
    (ht : rec.token ≠ "")
    (agree : ∀ r ∈ s.session, r.token = rec.token → r.user_id = rec.user_id) :
    authenticate s (some rec.token) = .ok rec.user_id
    ∧ ∀ g : Int → Int, authenticate (setExpiry g s) (some rec.token) = .ok rec.user_id := by
  constructor
  · obtain ⟨r, hr, hu⟩ := first_agreeing_match s.session rec hmem agree
    have : get_session_documents s rec.token 1 = [r] :=
      take_one_eq_of_head _ _ hr
    simp [authenticate, ht, this, hu]
  · intro g
    set f : SessionRecord → SessionRecord :=
      fun r => { r with expires_at := g r.expires_at } with hf
    have hmem' : f rec ∈ (setExpiry g s).session := by
      simp only [setExpiry, hf]
      exact List.mem_map_of_mem _ hmem
    have agree' : ∀ r ∈ (setExpiry g s).session,
        r.token = (f rec).token → r.user_id = (f rec).user_id := by
      intro r hr htok
      simp only [setExpiry, hf, List.mem_map] at hr
      obtain ⟨r0, hr0, rfl⟩ := hr
      exact agree r0 hr0 htok
    obtain ⟨r, hr, hu⟩ := first_agreeing_match (setExpiry g s).session (f rec) hmem' agree'
    have : get_session_documents (setExpiry g s) (f rec).token 1 = [r] :=
      take_one_eq_of_head _ _ hr
    have htok' : (f rec).token = rec.token := rfl
    rw [htok'] at this
    have ht' : (f rec).token ≠ "" := ht
    simp [authenticate, ht, this, hu]

/-- Claim C2, witness instance of the amended theorem: a single stored
session whose expiry is far in the past still authenticates to its user. -/
theorem c2_witness :
    (⟨"u1", "tok", -999⟩ : SessionRecord) ∈ (⟨[], [⟨"u1", "tok", -999⟩], [], []⟩ : Store).session
    ∧ (authenticate ⟨[], [⟨"u1", "tok", -999⟩], [], []⟩ (some "tok") = .ok "u1"
      ∧ ∀ g : Int → Int,
          authenticate (setExpiry g ⟨[], [⟨"u1", "tok", -999⟩], [], []⟩) (some "tok") = .ok "u1") :=
  ⟨by simp, c2_amended ⟨[], [⟨"u1", "tok", -999⟩], [], []⟩ ⟨"u1", "tok", -999⟩
    (by simp) (by decide)
    (by intro r hr htok; simp at hr; simp [hr])⟩

/-! ## Claim C3 -/

/-- Store holding two pending records for the same `(phone, code)` pair: the
first one timestamp-expired, the second one still alive. -/
def c3DupStore : Store :=
  ⟨[⟨"p", "c", "pending", 0, 0, none⟩, ⟨"p", "c", "pending", 100, 0, none⟩], [], [], []⟩

/-- Claim C3, counterexample: at time 50 an unexpired pending record for
`("p", "c")` exists in the store (expiry 100, status pending), so the
claim's "succeeds iff a pending-or-unexpired record with that pair exists"
demands success — but the code examines only the store's first match
(limit 1, natural order), which is the record with expiry 0, and fails with
CodeExpired. -/
theorem c3_counterexample :
    (⟨"p", "c", "pending", 100, 0, none⟩ : OtpRecord) ∈ c3DupStore.otp
    ∧ ("pending" : String) ≠ "expired"
    ∧ ¬((50 : Int) > 100)
    ∧ (verify_otp c3DupStore 50 [1] true "p" "c").1 = .error ⟨400, "Code expired"⟩ :=
  ⟨by simp [c3DupStore], by decide, by decide, rfl⟩

/-- Claim C3 (amended): verify-otp's outcome is decided by the first
`(trimmed phone, trimmed code)` match in the store's natural order, not by
an arbitrary matching record: it fails with 400 Invalid code when no record
matches the pair, fails with 400 Code expired when the first matching
record has status "expired" or its stored expires_at is earlier than the
current time, and succeeds (returning the freshly generated token) exactly
when that first matching record is neither. -/
theorem c3_amended (s : Store) (now : Int) (bytes : List Nat) (u : Bool)
    (phoneRaw codeRaw : String) :
    (otpFirstMatch s (pyStrip phoneRaw) (pyStrip codeRaw) = none →
      verify_otp s now bytes u phoneRaw codeRaw = (.error ⟨400, "Invalid code"⟩, s))
    ∧ ∀ rec, otpFirstMatch s (pyStrip phoneRaw) (pyStrip codeRaw) = some rec →
        ((rec.status = "expired" ∨ rec.expires_at < now →
          verify_otp s now bytes u phoneRaw codeRaw = (.error ⟨400, "Code expired"⟩, s))
        ∧ (rec.status ≠ "expired" → ¬rec.expires_at < now →
          (verify_otp s now bytes u phoneRaw codeRaw).1 = .ok (token_hex bytes))) := by
  constructor
  · intro h
    have hfil : s.otp.filter
        (fun r => r.phone == pyStrip phoneRaw && r.code == pyStrip codeRaw) = [] := by
      simpa [otpFirstMatch, List.head?_eq_none_iff] using h
    simp [verify_otp, get_otp_documents, hfil]
  · intro rec hm
    have hg : get_otp_documents s (pyStrip phoneRaw) (pyStrip codeRaw) 1 = [rec] :=
      take_one_eq_of_head _ _ hm
    constructor
    · intro hcond
      simp only [verify_otp, hg]
      rw [if_pos hcond]
    · intro h1 h2
      simp only [verify_otp, hg]
      rw [if_neg (by tauto)]

/-- Claim C3, witness instance of the amended theorem: a single matching
record whose stored expiry (10) is earlier than the current time (50) makes
verify-otp fail with Code expired. -/
theorem c3_witness :
    verify_otp ⟨[⟨"p", "c", "pending", 10, 0, none⟩], [], [], []⟩ 50 [1] true "p" "c"
      = (.error ⟨400, "Code expired"⟩, ⟨[⟨"p", "c", "pending", 10, 0, none⟩], [], [], []⟩) :=
  ((c3_amended ⟨[⟨"p", "c", "pending", 10, 0, none⟩], [], [], []⟩ 50 [1] true "p" "c").2
    ⟨"p", "c", "pending", 10, 0, none⟩ rfl).1 (Or.inr (by decide))

/-! ## Claim C4 -/

theorem char_ofNat_digit (d : Nat) (h : d < 10) :
    (Char.ofNat (48 + d)).isDigit = true := by
  interval_cases d <;> decide

theorem format06_length (n : Nat) : (format06 n).length = 6 := rfl

theorem format06_digits (n : Nat) : ∀ c ∈ (format06 n).data, c.isDigit = true := by
  intro c hc
  simp only [format06, String.mk, List.mem_map] at hc
  obtain ⟨d, _, rfl⟩ := hc
  exact char_ofNat_digit (d % 10) (Nat.mod_lt _ (by norm_num))

/-- Claim C4: for a phone empty after trimming, request-otp fails with a
400 ValidationError and persists nothing; for a non-empty trimmed phone it
returns a 6-character numeric code with expires_in = 300 and appends to the
store exactly one new record
`OtpRecord{phone (trimmed), code, status = "pending", expires_at = now + 5 minutes, attempts = 0}`,
leaving every other collection untouched. (`rand` is the draw of
`secrets.randbelow(1000000)`.) -/
theorem c4 (s : Store) (now : Int) (rand : Nat) (phoneRaw : String)
    (_hr : rand < 1000000) :
    (pyStrip phoneRaw = "" →
      request_otp s now rand phoneRaw = (.error ⟨400, "Phone is required"⟩, s))
    ∧ (pyStrip phoneRaw ≠ "" →
      request_otp s now rand phoneRaw
        = (.ok (format06 rand, 300),
           { s with otp := s.otp ++
              [⟨pyStrip phoneRaw, format06 rand, "pending", now + 300, 0, none⟩] })
      ∧ (format06 rand).length = 6
      ∧ ∀ c ∈ (format06 rand).data, c.isDigit = true) := by
  constructor
  · intro h
    simp [request_otp, h]
  · intro h
    exact ⟨by simp [request_otp, h], format06_length rand, format06_digits rand⟩

/-- Claim C4, witness: a phone that trims to non-empty persists the pending
record with a six-digit code; the bound on the random draw is concrete. -/
theorem c4_witness :
    (42 < 1000000)
    ∧ (pyStrip " 555 " ≠ "" →
      request_otp store0 0 42 " 555 "
        = (.ok (format06 42, 300),
           { store0 with otp := store0.otp ++
              [⟨pyStrip " 555 ", format06 42, "pending", 0 + 300, 0, none⟩] })
      ∧ (format06 42).length = 6
      ∧ ∀ c ∈ (format06 42).data, c.isDigit = true)
    ∧ pyStrip " 555 " ≠ "" :=
  ⟨by decide, (c4 store0 0 42 " 555 " (by decide)).2, by decide⟩

/-! ## Shared lemmas about successful verification -/

theorem verify_otp_ok (s : Store) (now : Int) (bytes : List Nat) (u : Bool)
    (phoneRaw codeRaw : String) (rec : OtpRecord)
    (hm : otpFirstMatch s (pyStrip phoneRaw) (pyStrip codeRaw) = some rec)
    (hs : rec.status ≠ "expired") (he : ¬rec.expires_at < now) :
    verify_otp s now bytes u phoneRaw codeRaw
      = (.ok (token_hex bytes),
         { s with
            session := s.session ++ [⟨pyStrip phoneRaw, token_hex bytes, now + 604800⟩],
            otp := if u then
                s.otp.map (markVerified (pyStrip phoneRaw) (pyStrip codeRaw) now)
              else s.otp }) := by
  have hg : get_otp_documents s (pyStrip phoneRaw) (pyStrip codeRaw) 1 = [rec] :=
    take_one_eq_of_head _ _ hm
  simp only [verify_otp, hg]
  rw [if_neg (by tauto)]
  cases u <;> simp

theorem markVerified_pred (phone code : String) (now : Int) (r : OtpRecord) :
    ((markVerified phone code now r).phone == phone
      && (markVerified phone code now r).code == code)
      = (r.phone == phone && r.code == code) := by
  unfold markVerified
  split <;> rfl

theorem pred_of_first_match (s : Store) (phone code : String) (rec : OtpRecord)
    (hm : otpFirstMatch s phone code = some rec) :
    (rec.phone == phone && rec.code == code) = true := by
  rcases hfil : s.otp.filter (fun r => r.phone == phone && r.code == code) with _ | ⟨a, t⟩
  · rw [otpFirstMatch, hfil] at hm
    simp at hm
  · rw [otpFirstMatch, hfil] at hm
    simp only [List.head?_cons, Option.some.injEq] at hm
    have hmem : a ∈ s.otp.filter (fun r => r.phone == phone && r.code == code) := by
      rw [hfil]; exact List.mem_cons_self _ _
    rw [← hm]
    simpa using (List.mem_filter.mp hmem).2

theorem otpFirstMatch_map_update (s : Store) (phone code : String) (now : Int)
    (rec : OtpRecord) (hm : otpFirstMatch s phone code = some rec) (l2 : List SessionRecord)
    (l3 : List ActivityRecord) (l4 : List PaymentRecord) :
    otpFirstMatch ⟨s.otp.map (markVerified phone code now), l2, l3, l4⟩ phone code
      = some (markVerified phone code now rec) := by
  show ((s.otp.map (markVerified phone code now)).filter
      (fun r => r.phone == phone && r.code == code)).head? = _
  rw [filter_map_comm _ _ (markVerified_pred phone code now) s.otp]
  rcases hfil : s.otp.filter (fun r => r.phone == phone && r.code == code) with _ | ⟨a, t⟩
  · rw [otpFirstMatch, hfil] at hm; simp at hm
  · rw [otpFirstMatch, hfil] at hm
    simp only [List.head?_cons, Option.some.injEq] at hm
    rw [hfil, ← hm]
    rfl

/-! ## Claim C5 -/

/-- Claim C5: verification is not single-use — when the store's first match
for the (trimmed) pair is unexpired, two successive verify-otp calls inside
the expiry window both succeed, and they return the two session tokens
produced by the two random draws, which are distinct whenever the draws
are (the first call marks the record "verified", a status the second call
still accepts). -/
theorem c5 (s : Store) (now1 now2 : Int) (b1 b2 : List Nat) (phoneRaw codeRaw : String)
    (rec : OtpRecord)
    (hm : otpFirstMatch s (pyStrip phoneRaw) (pyStrip codeRaw) = some rec)
    (hs : rec.status ≠ "expired")
    (he1 : ¬rec.expires_at < now1) (he2 : ¬rec.expires_at < now2)
    (hd : token_hex b1 ≠ token_hex b2) :
    (verify_otp s now1 b1 true phoneRaw codeRaw).1 = .ok (token_hex b1)
    ∧ (verify_otp (verify_otp s now1 b1 true phoneRaw codeRaw).2 now2 b2 true
        phoneRaw codeRaw).1 = .ok (token_hex b2)
    ∧ token_hex b1 ≠ token_hex b2 := by
  have h1 := verify_otp_ok s now1 b1 true phoneRaw codeRaw rec hm hs he1
  rw [h1]
  have hpred := pred_of_first_match s _ _ rec hm
  have hm2 : otpFirstMatch
      ⟨s.otp.map (markVerified (pyStrip phoneRaw) (pyStrip codeRaw) now1),
       s.session ++ [⟨pyStrip phoneRaw, token_hex b1, now1 + 604800⟩], s.activity, s.payment⟩
      (pyStrip phoneRaw) (pyStrip codeRaw)
      = some (markVerified (pyStrip phoneRaw) (pyStrip codeRaw) now1 rec) :=
    otpFirstMatch_map_update s _ _ now1 rec hm _ _ _
  have hrec2 : markVerified (pyStrip phoneRaw) (pyStrip codeRaw) now1 rec
      = { rec with status := "verified", updated_at := some now1 } := by
    simp [markVerified, hpred]
  have h2 := verify_otp_ok _ now2 b2 true phoneRaw codeRaw _ hm2
    (by rw [hrec2]; simp) (by rw [hrec2]; simpa using he2)
  simp only [if_true] at h2 ⊢
  rw [h2]
  exact ⟨trivial, rfl, hd⟩

/-- Store with a single pending OTP record for `("p", "c")`, expiring at
time 100. -/
def c5Store : Store := ⟨[⟨"p", "c", "pending", 100, 0, none⟩], [], [], []⟩

/-- Claim C5, witness: the same pair verifies at times 0 and 10, yielding
the distinct tokens of the two random draws. -/
theorem c5_witness :
    (verify_otp c5Store 0 [0] true "p" "c").1 = .ok (token_hex [0])
    ∧ (verify_otp (verify_otp c5Store 0 [0] true "p" "c").2 10 [1] true "p" "c").1
        = .ok (token_hex [1])
    ∧ token_hex [0] ≠ token_hex [1] :=
  c5 c5Store 0 10 [0] [1] "p" "c" ⟨"p", "c", "pending", 100, 0, none⟩ rfl
    (by decide) (by decide) (by decide) (by decide)

/-! ## Claim C6 -/

theorem token_hex_length (bytes : List Nat) :
    (token_hex bytes).length = 2 * bytes.length := by
  induction bytes with
  | nil => rfl
  | cons b t ih =>
    have hstep : (token_hex (b :: t)).length = 2 + (token_hex t).length := by
      simp [token_hex, String.length, byteHex]
      omega
    rw [hstep, ih, List.length_cons]
    ring

theorem hexDigit_isHex (k : Nat) (h : k < 16) : isHexChar (hexDigit k) = true := by
  interval_cases k <;> decide

theorem token_hex_chars (bytes : List Nat) (hb : ∀ b ∈ bytes, b < 256) :
    ∀ c ∈ (token_hex bytes).data, isHexChar c = true := by
  intro c hc
  have hc' : c ∈ (bytes.map byteHex).flatten := hc
  rw [List.mem_flatten] at hc'
  obtain ⟨cs, hcs, hcmem⟩ := hc'
  rw [List.mem_map] at hcs
  obtain ⟨b, hbmem, rfl⟩ := hcs
  have hb' := hb b hbmem
  simp only [byteHex, List.mem_cons, List.not_mem_nil, or_false] at hcmem
  rcases hcmem with rfl | rfl
  · exact hexDigit_isHex _ (by omega)
  · exact hexDigit_isHex _ (Nat.mod_lt _ (by norm_num))

/-- Claim C6: whenever verification succeeds, and whether or not the
best-effort update marking the OTP verified succeeds (`u`), the call
returns the generated token and appends to the session collection exactly
one record `SessionRecord{user_id = trimmed phone, token, expires_at = now + 7 days}`;
the token of a 16-byte draw is a 32-character lowercase-hex string. -/
theorem c6 (s : Store) (now : Int) (bytes : List Nat) (phoneRaw codeRaw : String)
    (rec : OtpRecord)
    (hm : otpFirstMatch s (pyStrip phoneRaw) (pyStrip codeRaw) = some rec)
    (hs : rec.status ≠ "expired") (he : ¬rec.expires_at < now)
    (hlen : bytes.length = 16) (hb : ∀ b ∈ bytes, b < 256) :
    (∀ u : Bool,
      (verify_otp s now bytes u phoneRaw codeRaw).1 = .ok (token_hex bytes)
      ∧ (verify_otp s now bytes u phoneRaw codeRaw).2.session
          = s.session ++ [⟨pyStrip phoneRaw, token_hex bytes, now + 604800⟩])
    ∧ (token_hex bytes).length = 32
    ∧ ∀ c ∈ (token_hex bytes).data, isHexChar c = true := by
  refine ⟨?_, ?_, token_hex_chars bytes hb⟩
  · intro u
    rw [verify_otp_ok s now bytes u phoneRaw codeRaw rec hm hs he]
    exact ⟨rfl, rfl⟩
  · rw [token_hex_length, hlen]

/-- Claim C6, witness: a successful verification over a concrete 16-byte
draw, with and without the bookkeeping update succeeding. -/
theorem c6_witness :
    (∀ u : Bool,
      (verify_otp c5Store 0 [0, 1, 2, 3, 4, 5, 6, 7, 8, 9, 10, 11, 12, 13, 14, 255]
          u "p" "c").1
        = .ok (token_hex [0, 1, 2, 3, 4, 5, 6, 7, 8, 9, 10, 11, 12, 13, 14, 255])
      ∧ (verify_otp c5Store 0 [0, 1, 2, 3, 4, 5, 6, 7, 8, 9, 10, 11, 12, 13, 14, 255]
          u "p" "c").2.session
        = c5Store.session ++
            [⟨pyStrip "p", token_hex [0, 1, 2, 3, 4, 5, 6, 7, 8, 9, 10, 11, 12, 13, 14, 255],
              0 + 604800⟩])
    ∧ (token_hex [0, 1, 2, 3, 4, 5, 6, 7, 8, 9, 10, 11, 12, 13, 14, 255]).length = 32
    ∧ ∀ c ∈ (token_hex [0, 1, 2, 3, 4, 5, 6, 7, 8, 9, 10, 11, 12, 13, 14, 255]).data,
        isHexChar c = true :=
  c6 c5Store 0 [0, 1, 2, 3, 4, 5, 6, 7, 8, 9, 10, 11, 12, 13, 14, 255] "p" "c"
    ⟨"p", "c", "pending", 100, 0, none⟩ rfl (by decide) (by decide) (by decide)
    (by decide)

/-! ## Claim C7 -/

theorem get_activity_after_seed (s : Store) (u : String)
    (hempty : s.activity.filter (fun r => r.user_id == u) = []) :
    get_activity_documents { s with activity := s.activity ++ demo_items u } u 50
      = demo_items u := by
  show ((s.activity ++ demo_items u).filter (fun r => r.user_id == u)).take 50 = _
  rw [List.filter_append, hempty]
  simp [demo_items]

/-- Claim C7: for an authenticated user whose activity list is empty, the
first `/activity` call seeds and returns exactly the four demo entries (one
per category travel, payment, cab, grocery, in that order), and a second
call returns the identical items while leaving the store unchanged (no
duplicate seeding). -/
theorem c7 (s : Store) (t u : String)
    (ha : authenticate s (some t) = .ok u)
    (hempty : s.activity.filter (fun r => r.user_id == u) = []) :
    list_activity s (some t)
      = (.ok (demo_items u), { s with activity := s.activity ++ demo_items u })
    ∧ list_activity { s with activity := s.activity ++ demo_items u } (some t)
      = (.ok (demo_items u), { s with activity := s.activity ++ demo_items u })
    ∧ (demo_items u).length = 4
    ∧ (demo_items u).map ActivityRecord.category = ["travel", "payment", "cab", "grocery"] := by
  have hget : get_activity_documents s u 50 = [] := by
    show (s.activity.filter (fun r => r.user_id == u)).take 50 = []
    rw [hempty]
    rfl
  have hseeded := get_activity_after_seed s u hempty
  have ha2 : authenticate { s with activity := s.activity ++ demo_items u } (some t)
      = .ok u := ha
  refine ⟨?_, ?_, rfl, rfl⟩
  · simp only [list_activity, ha, hget]
    simp [hseeded]
  · simp only [list_activity, ha2, hseeded]
    rw [if_neg (by simp [demo_items])]

/-- Store for the C7 witness: one session for user `"u1"`, no activity. -/
def c7Store : Store := ⟨[], [⟨"u1", "tok", 0⟩], [], []⟩

/-- Claim C7, witness instance at a concrete brand-new user. -/
theorem c7_witness :
    list_activity c7Store (some "tok")
      = (.ok (demo_items "u1"), { c7Store with activity := c7Store.activity ++ demo_items "u1" })
    ∧ list_activity { c7Store with activity := c7Store.activity ++ demo_items "u1" } (some "tok")
      = (.ok (demo_items "u1"), { c7Store with activity := c7Store.activity ++ demo_items "u1" })
    ∧ (demo_items "u1").length = 4
    ∧ (demo_items "u1").map ActivityRecord.category = ["travel", "payment", "cab", "grocery"] :=
  c7 c7Store "tok" "u1" rfl rfl

/-! ## Claim C8 -/

theorem roundHalfEven_intCast (n : ℤ) : roundHalfEven (n : ℚ) = n := by
  unfold roundHalfEven
  norm_num [Int.floor_intCast]

theorem pyRound2_int_mul (q : ℚ) (n : ℤ) (h : 100 * q = (n : ℚ)) : pyRound2 q = q := by
  unfold pyRound2
  rw [h, roundHalfEven_intCast, ← h, mul_comm, mul_div_assoc]
  norm_num

/-- Claim C8: for every request with a (non-empty) token, `/cab/quote`
returns the fare `round(2.5 + 1.2 * max(1, len(pickup + dropoff)) / 10, 2)`,
which is exactly `2.5 + 0.12 * max(1, len(pickup) + len(dropoff))` (the
two-decimal rounding is the identity here), a deterministic function of the
two input strings only — in particular, independent of the token. -/
theorem c8 (pickup dropoff t : String) (ht : t ≠ "") :
    cab_quote pickup dropoff (some t)
      = .ok (pickup, dropoff,
          5 / 2 + 3 / 25 * ((max 1 (pickup.length + dropoff.length) : ℕ) : ℚ))
    ∧ ∀ t2 : String, t2 ≠ "" →
        cab_quote pickup dropoff (some t2) = cab_quote pickup dropoff (some t) := by
  constructor
  · have hlen : (pickup ++ dropoff).length = pickup.length + dropoff.length :=
      String.length_append pickup dropoff
    simp only [cab_quote, ht, if_neg, ite_false, hlen]
    have h100 : 100 * ((5 : ℚ) / 2
          + 6 / 5 * ((max 1 (pickup.length + dropoff.length) : ℕ) : ℚ) / 10)
        = ((250 + 12 * ((max 1 (pickup.length + dropoff.length) : ℕ) : ℤ) : ℤ) : ℚ) := by
      push_cast
      ring
    rw [pyRound2_int_mul _ _ h100]
    norm_num
    ring
  · intro t2 ht2
    simp [cab_quote, ht, ht2]

/-- Claim C8, witness instance at concrete strings and token. -/
theorem c8_witness :
    cab_quote "a" "b" (some "tok")
      = .ok ("a", "b", 5 / 2 + 3 / 25 * ((max 1 ("a".length + "b".length) : ℕ) : ℚ))
    ∧ ∀ t2 : String, t2 ≠ "" →
        cab_quote "a" "b" (some t2) = cab_quote "a" "b" (some "tok") :=
  c8 "a" "b" "tok" (by decide)

/-! ## Claim C9 -/

/-- Claim C9: a successful `/pay/create-intent` call appends exactly one
payment record whose `user_id` field is the literal token string the caller
passed — when the token resolves to a different phone identity, the
persisted `user_id` is not that identity. -/
theorem c9 (s : Store) (refBytes : List Nat) (amount : ℚ) (method t : String)
    (ht : t ≠ "") :
    create_payment s refBytes amount method (some t)
      = (.ok (token_hex refBytes),
         { s with payment := s.payment ++ [⟨t, amount, method, token_hex refBytes⟩] })
    ∧ (⟨t, amount, method, token_hex refBytes⟩ : PaymentRecord).user_id = t
    ∧ ∀ u2, authenticate s (some t) = .ok u2 → u2 ≠ t →
        (⟨t, amount, method, token_hex refBytes⟩ : PaymentRecord).user_id ≠ u2 := by
  refine ⟨by simp [create_payment, ht], rfl, ?_⟩
  intro u2 _ hne
  exact Ne.symm hne

/-- Store for the C9 witness: the token `"tok"` resolves to phone
identity `"phoneU"`. -/
def c9Store : Store := ⟨[], [⟨"phoneU", "tok", 0⟩], [], []⟩

/-- Claim C9, witness instance: the persisted record carries `"tok"`, not
the resolved identity `"phoneU"`. -/
theorem c9_witness :
    create_payment c9Store [7] 5 "card" (some "tok")
      = (.ok (token_hex [7]),
         { c9Store with payment := c9Store.payment ++ [⟨"tok", 5, "card", token_hex [7]⟩] })
    ∧ (⟨"tok", 5, "card", token_hex [7]⟩ : PaymentRecord).user_id = "tok"
    ∧ ∀ u2, authenticate c9Store (some "tok") = .ok u2 → u2 ≠ "tok" →
        (⟨"tok", 5, "card", token_hex [7]⟩ : PaymentRecord).user_id ≠ u2 :=
  c9 c9Store [7] 5 "card" "tok" (by decide)

/-! ## Claim C10 -/

/-- Claim C10: whenever verify-otp fails (Invalid code or Code expired),
the document store after the call is exactly the store before it — the
error path writes nothing. -/
theorem c10 (s : Store) (now : Int) (bytes : List Nat) (u : Bool)
    (phoneRaw codeRaw : String) (e : HttpError)
    (h : (verify_otp s now bytes u phoneRaw codeRaw).1 = .error e) :
    (verify_otp s now bytes u phoneRaw codeRaw).2 = s := by
  rcases hfil : otpFirstMatch s (pyStrip phoneRaw) (pyStrip codeRaw) with _ | doc
  · have hfil' : s.otp.filter
        (fun r => r.phone == pyStrip phoneRaw && r.code == pyStrip codeRaw) = [] := by
      simpa [otpFirstMatch, List.head?_eq_none_iff] using hfil
    simp [verify_otp, get_otp_documents, hfil']
  · have hg : get_otp_documents s (pyStrip phoneRaw) (pyStrip codeRaw) 1 = [doc] :=
      take_one_eq_of_head _ _ hfil
    simp only [verify_otp, hg] at h ⊢
    by_cases hc : doc.status = "expired" ∨ doc.expires_at < now
    · rw [if_pos hc]
    · rw [if_neg hc] at h
      simp at h

/-- Claim C10, witness: a failing verification (no matching record) leaves
the empty store untouched. -/
theorem c10_witness :
    (verify_otp store0 0 [1] true "p" "c").2 = store0 :=
  c10 store0 0 [1] true "p" "c" ⟨400, "Invalid code"⟩ rfl

end SuperApp
